import Mathlib

/-!
# Verification of the serve core of graphql-mesh

Shallow embedding of `src/packages/cli/src/commands/serve/serve.ts`
(`serveMesh`) and theorems checking the natural-language specification
against it.

Modelling conventions:
* JavaScript `undefined`-able values become `Option`.
* JavaScript truthiness of optional strings / numbers is made explicit
  (`jsStrTruthy`, `forkTruthy`).
* Express route registration is modelled as an ordered list of `Mount`
  records appended in the order the corresponding `app.use` / `app[method]`
  calls execute.
* The `async`/`await` scheduling inside the `handlers?.map(async ...)` +
  `Promise.all` block is modelled by the standard event-loop semantics:
  each callback runs synchronously up to its first `await`; the
  continuations after the `await`s run afterwards, in the order the awaited
  promises resolve (taken here to be call order).
* Thrown JavaScript exceptions become `Except String`.
-/

namespace Mesh

/-! ## Configuration (`YamlConfig.ServeConfig` as destructured by `serveMesh`) -/

/-- TLS credential file paths (`sslCredentials` in the config). -/
structure SslCredentials where
  key : String
  cert : String
deriving Repr, DecidableEq

/-- Upload limits sub-object (`upload` in the config); both fields optional. -/
structure UploadConfig where
  maxFileSize : Option Nat
  maxFiles : Option Nat
deriving Repr, DecidableEq

/-- One entry of the `handlers` list: either a dynamic handler
(recognized in the source by `'handler' in handlerConfig`) or a webhook
bridge (recognized by `'pubsubTopic' in handlerConfig`). -/
inductive HandlerEntry where
  /-- `{ path, method?, handler }` — `handler` is a module export expression. -/
  | dynamic (path : String) (method : Option String) (handler : String)
  /-- `{ path, pubsubTopic, payload? }` — `payload` is a lodash field path. -/
  | webhook (path : String) (pubsubTopic : String) (payload : Option String)
deriving Repr, DecidableEq

/-- The `ServeConfig` object as destructured at the head of `serveMesh`.
Fields that the source destructures with a default are kept optional here
and resolved by the `resolved*` functions below. -/
structure ServeConfig where
  fork : Option Nat := none
  exampleQuery : Option String := none
  port : Nat := 4000
  hostname : Option String := none
  cors : Bool := false
  handlers : Option (List HandlerEntry) := none
  staticFiles : Option String := none
  playground : Option Bool := none
  upload : Option UploadConfig := none
  maxRequestBodySize : Option String := none
  sslCredentials : Option SslCredentials := none
deriving Repr, DecidableEq

/-- Source default `hostname = 'localhost'`. -/
def resolvedHostname (cfg : ServeConfig) : String :=
  cfg.hostname.getD "localhost"

/-- Source default `maxFileSize = 10000000` from
`upload: { maxFileSize = 10000000, maxFiles = 10 } = {}`. -/
def resolvedMaxFileSize (cfg : ServeConfig) : Nat :=
  ((cfg.upload.bind (·.maxFileSize)).getD 10000000)

/-- Source default `maxFiles = 10`. -/
def resolvedMaxFiles (cfg : ServeConfig) : Nat :=
  ((cfg.upload.bind (·.maxFiles)).getD 10)

/-- Source default `maxRequestBodySize = '100kb'`. -/
def resolvedMaxRequestBodySize (cfg : ServeConfig) : String :=
  cfg.maxRequestBodySize.getD "100kb"

/-- `const protocol = sslCredentials ? 'https' : 'http'`. -/
def protocolOf (cfg : ServeConfig) : String :=
  if cfg.sslCredentials.isSome then "https" else "http"

/-- `const graphqlPath = '/graphql'` — a fixed constant in the source. -/
def graphqlPath : String := "/graphql"

/-- ``const serverUrl = `${protocol}://${hostname}:${port}${graphqlPath}` ``. -/
def serverUrlOf (cfg : ServeConfig) : String :=
  protocolOf cfg ++ "://" ++ resolvedHostname cfg ++ ":" ++ toString cfg.port
    ++ graphqlPath

/-- JavaScript truthiness of an optional numeric config value
(`undefined` and `0` are falsy). -/
def forkTruthy : Option Nat → Bool
  | none => false
  | some n => n != 0

/-- JavaScript truthiness of an optional string (`undefined` and `''` falsy). -/
def jsStrTruthy : Option String → Bool
  | none => false
  | some s => !s.data.isEmpty

/-! ## Process supervisor (lines 53–59 and the listen log at 154–162) -/

/-- A log line emitted through the winston logger. -/
inductive LogEntry where
  | info (msg : String)
  | error (msg : String)
deriving Repr, DecidableEq

/-- ``logger.info(`🕸️ => Serving GraphQL Mesh: ${serverUrl} in ${forkNum} forks`)``. -/
def forkLogMsg (serverUrl : String) (forkNum : Nat) : String :=
  "🕸️ => Serving GraphQL Mesh: " ++ serverUrl ++ " in " ++ toString forkNum
    ++ " forks"

/-- ``logger.info(`🕸️ => Serving GraphQL Mesh: ${serverUrl}`)``. -/
def serveLogMsg (serverUrl : String) : String :=
  "🕸️ => Serving GraphQL Mesh: " ++ serverUrl

/-- `const forkNum = fork > 1 ? fork : cpus().length` (only reached when
`fork` is truthy). -/
def forkCount (fork : Option Nat) (numCPUs : Nat) : Nat :=
  if fork.getD 0 > 1 then fork.getD 0 else numCPUs

/-- Outcome of the top-level `if (isMaster && fork)` branch of `serveMesh`:
how many worker processes `cluster.fork()` is called for, what is logged in
that branch, and whether this process falls through to the `else` branch
that builds and binds the listener itself. -/
structure SuperviseResult where
  spawned : Nat
  logs : List LogEntry
  servesDirectly : Bool
deriving Repr, DecidableEq

/-- Lines 53–59: `if (isMaster && fork) { const forkNum = ...; for (...)
clusterFork(); logger.info(...) } else { ...full listener setup... }`. -/
def superviseMesh (isMaster : Bool) (fork : Option Nat) (numCPUs : Nat)
    (serverUrl : String) : SuperviseResult :=
  if isMaster && forkTruthy fork then
    let forkNum := forkCount fork numCPUs
    { spawned := forkNum
      logs := [.info (forkLogMsg serverUrl forkNum)]
      servesDirectly := false }
  else
    { spawned := 0, logs := [], servesDirectly := true }

/-! ## Express route registration (lines 60–152) -/

/-- The distinct middleware functions `serveMesh` mounts on the express app,
identified by what the source passes to `app.use` / `app.get` / `app[method]`. -/
inductive Middleware where
  /-- `cors(corsConfig)` (line 75). -/
  | corsMw
  /-- `bodyParser.json({ limit: maxRequestBodySize })` (lines 78–82). -/
  | jsonBody (limit : String)
  /-- `cookieParser()` (line 83). -/
  | cookieMw
  /-- `express.static(staticFiles)` (line 86). -/
  | staticMw (root : String)
  /-- `(_req, res) => res.sendFile(indexPath)` (line 89). -/
  | indexFile
  /-- `graphqlUploadExpress({ maxFileSize, maxFiles })` (line 93). -/
  | uploadMw (maxFileSize : Nat) (maxFiles : Nat)
  /-- `graphqlHandler(schema, contextBuilder)` (line 93). -/
  | graphqlEndpoint
  /-- `pubSubHandler` attaching the bus to the request (lines 110–114). -/
  | pubsubInject
  /-- A resolved dynamic handler function (line 121–122). -/
  | dynamicHandler (handler : String)
  /-- The webhook→pub/sub bridge closure (lines 124–131). -/
  | webhookBridge (pubsubTopic : String) (payload : Option String)
  /-- `playgroundMiddleware` (lines 146–150). -/
  | playgroundMw
  /-- `express.static(join(__dirname, './public'))` (line 151). -/
  | staticPublic
deriving Repr, DecidableEq

/-- One registration on the express app: the express method name used to
register (`"use"` for `app.use`, otherwise the lower-cased verb), the mount
path, and the middleware mounted. `app.use(mw)` without a path mounts at `/`. -/
structure Mount where
  method : String
  path : String
  mw : Middleware
deriving Repr, DecidableEq

/-- ASCII lower-casing of one character, as `String.prototype.toLowerCase`
acts on the ASCII HTTP verb names used in the config. -/
def lowerChar (c : Char) : Char :=
  if 0x41 ≤ c.toNat ∧ c.toNat ≤ 0x5a then Char.ofNat (c.toNat + 0x20) else c

/-- `method.toLowerCase()` for the ASCII method strings of the config. -/
def jsToLower (s : String) : String :=
  ⟨s.data.map lowerChar⟩

/-- The express method name the source computes for a dynamic handler:
`app[handlerConfig.method.toLowerCase() || 'use']` (line 122).
When `method` is `undefined`, evaluating `.toLowerCase()` on it throws a
`TypeError` before the `|| 'use'` fallback can apply; when `method` is the
empty string, `''.toLowerCase()` is falsy and the fallback yields `'use'`. -/
def dynamicMountMethod : Option String → Except String String
  | none =>
      .error "TypeError: Cannot read property 'toLowerCase' of undefined"
  | some m =>
      .ok (if (jsToLower m).data.isEmpty then "use" else jsToLower m)

/-- Synchronous phase of the `handlers?.map(async handlerConfig => ...)`
block: each callback runs up to its first `await` during the `map` itself,
in list order. A webhook-bridge entry reaches its `app.use(...)` call with
no preceding `await`, so it mounts here; a dynamic entry suspends at
`await loadFromModuleExportExpression(...)` before mounting anything. -/
def webhookMounts : List HandlerEntry → List Mount
  | [] => []
  | .webhook path topic payload :: rest =>
      { method := "use", path := path, mw := .webhookBridge topic payload }
        :: webhookMounts rest
  | .dynamic _ _ _ :: rest => webhookMounts rest

/-- Deferred phase: the continuations after `await
loadFromModuleExportExpression(...)`, which run once the module loads
resolve (in call order). Each computes `app[method.toLowerCase() || 'use']`
and mounts; a thrown `TypeError` (absent `method`) rejects that callback's
promise — the entry mounts nothing — and the first such error is what the
`await Promise.all(...)` in `serveMesh` rethrows (the sibling callbacks
are not cancelled, so later entries still mount). -/
def dynamicMounts : List HandlerEntry → List Mount × Option String
  | [] => ([], none)
  | .webhook _ _ _ :: rest => dynamicMounts rest
  | .dynamic path method handler :: rest =>
      let (ms, err) := dynamicMounts rest
      match dynamicMountMethod method with
      | .ok m => ({ method := m, path := path, mw := .dynamicHandler handler } :: ms, err)
      | .error e => (ms, some e)

/-- The complete registration sequence produced by the `Promise.all` block
(lines 116–134), together with the error (if any) that the awaited
`Promise.all` rethrows: all synchronous-phase mounts precede all
deferred-phase mounts. -/
def handlerMounts (hs : List HandlerEntry) : List Mount × Option String :=
  (webhookMounts hs ++ (dynamicMounts hs).1, (dynamicMounts hs).2)

/-- The single mount an individual entry contributes (none when its mount
throws), ignoring scheduling: used to state ordering properties. -/
def entryMount : HandlerEntry → Option Mount
  | .webhook path topic payload =>
      some { method := "use", path := path, mw := .webhookBridge topic payload }
  | .dynamic path method handler =>
      match dynamicMountMethod method with
      | .ok m => some { method := m, path := path, mw := .dynamicHandler handler }
      | .error _ => none

/-- Whether an entry is a webhook bridge. -/
def isWebhookEntry : HandlerEntry → Bool
  | .webhook _ _ _ => true
  | .dynamic _ _ _ => false

/-! ## Whole-app route table (lines 74–152) -/

/-- Ambient runtime environment the listener setup reads:
`process.env.NODE_ENV` and whether `join(baseDir, staticFiles,
'index.html')` exists (`pathExists(indexPath)`, line 88). -/
structure Env where
  nodeEnv : Option String := none
  indexExists : Bool := false
deriving Repr, DecidableEq

/-- `process.env.NODE_ENV?.toLowerCase() !== 'production'` negated:
whether the runtime environment signals production. `undefined` is not
`'production'`. -/
def nodeEnvIsProduction (nodeEnv : Option String) : Bool :=
  nodeEnv.map jsToLower == some "production"

/-- Line 136: `typeof playground !== 'undefined' ? playground :
process.env.NODE_ENV?.toLowerCase() !== 'production'`. -/
def playgroundEnabled (playground : Option Bool) (nodeEnv : Option String) :
    Bool :=
  match playground with
  | some b => b
  | none => !nodeEnvIsProduction nodeEnv

/-- The registrations made before the `handlers` block, in execution order
(lines 74–114): optional CORS, JSON body parsing, cookie parsing, optional
static root (plus the index route when `index.html` exists), the GraphQL
endpoint chain `app.use(graphqlPath, graphqlUploadExpress(...),
graphqlHandler(...))` (modelled as two mounts at `graphqlPath`), and the
pub/sub-injecting middleware. -/
def earlyMounts (cfg : ServeConfig) (env : Env) : List Mount :=
  (if cfg.cors then [{ method := "use", path := "/", mw := .corsMw }] else [])
  ++ [{ method := "use", path := "/",
        mw := .jsonBody (resolvedMaxRequestBodySize cfg) },
      { method := "use", path := "/", mw := .cookieMw }]
  ++ (if jsStrTruthy cfg.staticFiles then
        { method := "use", path := "/",
          mw := .staticMw (cfg.staticFiles.getD "") }
          :: (if env.indexExists then
                [{ method := "get", path := "/", mw := .indexFile }]
              else [])
      else [])
  ++ [{ method := "use", path := graphqlPath,
        mw := .uploadMw (resolvedMaxFileSize cfg) (resolvedMaxFiles cfg) },
      { method := "use", path := graphqlPath, mw := .graphqlEndpoint },
      { method := "use", path := "/", mw := .pubsubInject }]

/-- The registrations of the playground block (lines 146–151), made only
when the playground is enabled: `app.get('/', playgroundMiddleware)` only
when `staticFiles` is falsy, then `app.get(graphqlPath,
playgroundMiddleware)` and the explorer's own static assets. -/
def playgroundMounts (cfg : ServeConfig) : List Mount :=
  (if !jsStrTruthy cfg.staticFiles then
      [{ method := "get", path := "/", mw := .playgroundMw }]
   else [])
  ++ [{ method := "get", path := graphqlPath, mw := .playgroundMw },
      { method := "use", path := "/", mw := .staticPublic }]

/-- Result of the `else` branch of `serveMesh`: the route table in
registration order, the WebSocket upgrade path (`new ws.Server({ path:
graphqlPath, server })`, lines 95–98), and the error rethrown by `await
Promise.all(...)`, if any (in which case the code after line 134 — the
playground block and `httpServer.listen` — never runs). -/
structure AppResult where
  mounts : List Mount
  wsPath : String
  buildError : Option String
deriving Repr, DecidableEq

/-- The route table `serveMesh` builds in its `else` branch, in the order
the registrations execute. -/
def buildApp (cfg : ServeConfig) (env : Env) : AppResult :=
  let hm := handlerMounts (cfg.handlers.getD [])
  { mounts :=
      earlyMounts cfg env ++ hm.1
        ++ (match hm.2 with
            | some _ => []
            | none =>
                if playgroundEnabled cfg.playground env.nodeEnv then
                  playgroundMounts cfg
                else [])
    wsPath := graphqlPath
    buildError := hm.2 }

/-! ## Webhook/pub-sub bridge handler (lines 124–131) -/

/-- JSON-like JavaScript values, as produced for `req.body` by
`bodyParser.json`. -/
inductive Json where
  | null
  | bool (b : Bool)
  | num (n : Int)
  | str (s : String)
  | arr (elems : List Json)
  | obj (fields : List (String × Json))
deriving Repr

/-- One property access `value[key]` as lodash `get` performs per path
segment: object field lookup, numeric index into an array, `undefined`
otherwise. -/
def jsonLookup (v : Json) (key : String) : Option Json :=
  match v with
  | .obj fields => (fields.find? (fun f => f.1 == key)).map (·.2)
  | .arr elems =>
      match key.toNat? with
      | some i => elems.get? i
      | none => none
  | _ => none

/-- Splitting a lodash field path at the dots (the config values modelled
here use the dot-separated fragment of lodash's path grammar). -/
def splitPathAux : List Char → List Char → List String
  | [], acc => [String.mk acc.reverse]
  | c :: cs, acc =>
      if c = '.' then String.mk acc.reverse :: splitPathAux cs []
      else splitPathAux cs (c :: acc)

/-- `splitPath "a.b"` is `["a", "b"]`. -/
def splitPath (p : String) : List String :=
  splitPathAux p.data []

/-- lodash `get(object, path)`: walk the path segments left to right,
yielding `none` (JavaScript `undefined`) as soon as a segment is missing —
never an error. -/
def lodashGet (v : Json) (path : String) : Option Json :=
  (splitPath path).foldlM jsonLookup v

/-- Observable effects of the webhook bridge closure mounted at line 124:
what it publishes to the bus, whether it completed the response
(`res.end()`), and whether it invoked schema execution (it never does:
the closure only reads `req.body` and calls `pubsub.publish`). -/
structure WebhookOutcome where
  published : List (String × Option Json)
  responseEnded : Bool
  touchedSchema : Bool
deriving Repr

/-- Lines 124–131: `let payload = req.body; if (handlerConfig.payload) {
payload = get(payload, handlerConfig.payload); }
pubsub.publish(handlerConfig.pubsubTopic, payload); res.end();`.
`pubsub.publish` is not awaited, so `res.end()` runs regardless of any
subscriber. -/
def webhookHandler (pubsubTopic : String) (payload : Option String)
    (body : Json) : WebhookOutcome :=
  let value : Option Json :=
    if jsStrTruthy payload then lodashGet body (payload.getD "")
    else some body
  { published := [(pubsubTopic, value)]
    responseEnded := true
    touchedSchema := false }

/-! ## Subscription gateway connection lifecycle (lines 100–108)

Modelled from the spec: the Subscription Gateway protocol machine is
implemented by `useServer` of the external `graphql-ws` package, whose
code is not part of this repository — `serveMesh` only passes it the
option `context: ctx => contextBuilder(ctx.extra.request)`. Section 4.4 of
the spec fixes the missing behaviour: on handshake one context is built
via the Context Builder from the upgrade request and is valid for the
lifetime of the connection, not rebuilt per subscribed operation. -/

/-- State of one WebSocket connection after the handshake. -/
structure WSConn (Req Ctx : Type) where
  upgradeRequest : Req
  connContext : Ctx
  builderCalls : Nat

/-- The protocol handshake: builds the connection context from the upgrade
request, counting the single Context Builder invocation. -/
def wsHandshake {Req Ctx : Type} (contextBuilder : Req → Ctx) (req : Req) :
    WSConn Req Ctx :=
  { upgradeRequest := req
    connContext := contextBuilder req
    builderCalls := 1 }

/-- Handling one subscribe message: the operation executes with the stored
connection context; the connection state (and builder call count) is
unchanged. -/
def wsSubscribeOp {Req Ctx : Type} (conn : WSConn Req Ctx) (_opId : Nat) :
    Ctx × WSConn Req Ctx :=
  (conn.connContext, conn)

/-- Running a whole sequence of subscribe messages on a connection,
collecting the context each operation was given. -/
def wsRunOps {Req Ctx : Type} (conn : WSConn Req Ctx) :
    List Nat → List Ctx × WSConn Req Ctx
  | [] => ([], conn)
  | op :: ops =>
      let step := wsSubscribeOp conn op
      let rest := wsRunOps step.2 ops
      (step.1 :: rest.1, rest.2)

/-! ## Listener binding (lines 154–162) -/

/-- Outcome of `httpServer.listen(port, hostname, cb)`: either the socket
bound (the callback fired) or the server emitted `'error'` with a cause. -/
inductive ListenOutcome where
  | bound
  | failed (message : String)
deriving Repr, DecidableEq

/-- Lines 154–162: on successful bind the callback logs the serve URL
unless `fork` is truthy; on an `'error'` event the handler logs
``Unable to start GraphQL-Mesh: ${e.message}`` and the success callback
never fires. -/
def listenLogs (fork : Option Nat) (serverUrl : String) :
    ListenOutcome → List LogEntry
  | .bound =>
      if forkTruthy fork then [] else [.info (serveLogMsg serverUrl)]
  | .failed msg => [.error ("Unable to start GraphQL-Mesh: " ++ msg)]

end Mesh

namespace MeshThm

open Mesh

/-- Claim C1 as the spec states it: with `fork = 1` on the master, no
workers are spawned and the process serves directly, exactly as with
`fork` absent or `0`. -/
def c1Claim : Prop :=
  ∀ numCPUs serverUrl,
    (superviseMesh true (some 1) numCPUs serverUrl).spawned = 0 ∧
    (superviseMesh true (some 1) numCPUs serverUrl).servesDirectly = true

/-- C1 counterexample: on a 4-CPU machine the master with `fork = 1`
spawns 4 workers (since `1` is truthy but `1 > 1` is false, `forkNum`
falls back to `cpus().length`) and does not serve directly, unlike
`fork = 0` or `fork` absent. -/
theorem c1_fork_one_not_like_zero : ¬ c1Claim := by
  intro h
  have h4 := (h 4 "http://localhost:4000/graphql").1
  simp [superviseMesh, forkTruthy, forkCount] at h4

/-- C1 amended: with `fork = 1` on the master, `serveMesh` spawns
`cpus().length` workers and performs no serving itself (the same as any
truthy `fork ≤ 1`), whereas with `fork = 0` or `fork` absent the current
process spawns nothing and runs the listener directly. -/
theorem c1_fork_one_spawns_cpu_count (numCPUs : Nat) (serverUrl : String) :
    (superviseMesh true (some 1) numCPUs serverUrl).spawned = numCPUs ∧
    (superviseMesh true (some 1) numCPUs serverUrl).servesDirectly = false ∧
    (superviseMesh true none numCPUs serverUrl).spawned = 0 ∧
    (superviseMesh true none numCPUs serverUrl).servesDirectly = true ∧
    (superviseMesh true (some 0) numCPUs serverUrl).spawned = 0 ∧
    (superviseMesh true (some 0) numCPUs serverUrl).servesDirectly = true := by
  refine ⟨?_, ?_, ?_, ?_, ?_, ?_⟩ <;>
    simp [superviseMesh, forkTruthy, forkCount]

/-- Claim C2: when the process is the master and `fork` is truthy,
`serveMesh` spawns exactly `forkCount` workers (`fork` itself when
`fork > 1`, otherwise the CPU count), does not serve, and logs the
resolved count and target URL exactly once; otherwise it spawns nothing
and runs the listener directly. -/
theorem c2_supervisor_contract (isMaster : Bool) (fork : Option Nat)
    (numCPUs : Nat) (serverUrl : String) :
    (forkTruthy fork = true →
      (superviseMesh true fork numCPUs serverUrl).spawned
          = forkCount fork numCPUs ∧
      (superviseMesh true fork numCPUs serverUrl).servesDirectly = false ∧
      (superviseMesh true fork numCPUs serverUrl).logs
          = [.info (forkLogMsg serverUrl (forkCount fork numCPUs))]) ∧
    (isMaster = false ∨ forkTruthy fork = false →
      (superviseMesh isMaster fork numCPUs serverUrl).spawned = 0 ∧
      (superviseMesh isMaster fork numCPUs serverUrl).servesDirectly = true ∧
      (superviseMesh isMaster fork numCPUs serverUrl).logs = []) := by
  constructor
  · intro ht
    simp [superviseMesh, ht]
  · intro hf
    rcases hf with hf | hf <;> simp [superviseMesh, hf]

/-- C2 witness: a master with `fork = 4` on 8 CPUs spawns 4 workers and a
non-master with the same config spawns none and serves directly. -/
theorem c2_supervisor_contract_witness :
    (superviseMesh true (some 4) 8 "u").spawned = forkCount (some 4) 8 ∧
    (superviseMesh false (some 4) 8 "u").servesDirectly = true :=
  ⟨((c2_supervisor_contract true (some 4) 8 "u").1 (by decide)).1,
   ((c2_supervisor_contract false (some 4) 8 "u").2 (Or.inl rfl)).2.1⟩

/-- C3 (code bug evaluation): a dynamic handler entry whose `method` is
absent makes line 122 throw a `TypeError` (the `|| 'use'` fallback never
applies to `undefined`), so nothing is mounted and the `Promise.all`
rejects — contradicting the intended catch-all default that the code's own
`|| 'use'` fallback expresses. The declared-method cases behave as claimed:
the verb is lower-cased (case-insensitive mounting), and an empty-string
method does reach the `'use'` fallback. -/
theorem c3_absent_method_throws :
    dynamicMountMethod none
        = Except.error "TypeError: Cannot read property 'toLowerCase' of undefined" ∧
    handlerMounts [HandlerEntry.dynamic "/hook" none "my-module#handler"]
        = ([], some "TypeError: Cannot read property 'toLowerCase' of undefined") ∧
    dynamicMountMethod (some "POST") = Except.ok "post" ∧
    dynamicMountMethod (some "get") = Except.ok "get" ∧
    dynamicMountMethod (some "") = Except.ok "use" := by
  refine ⟨rfl, ?_, rfl, rfl, rfl⟩
  simp [handlerMounts, webhookMounts, dynamicMounts, dynamicMountMethod]

/-- Claim C4 as the spec states it, for a given configuration list: the
registration sequence on the app equals the per-entry mounts in
configuration order. -/
def mountsInConfigOrder (hs : List HandlerEntry) : Prop :=
  (handlerMounts hs).1 = hs.filterMap entryMount

/-- C4 counterexample: in `[dynamic GET /d, webhook /w]`, the webhook's
`app.use` runs synchronously during the `map` while the dynamic entry is
suspended at its `await`, so the later-listed webhook is registered first
and configuration order is violated. -/
theorem c4_counterexample_dynamic_then_webhook :
    ¬ mountsInConfigOrder
      [HandlerEntry.dynamic "/d" (some "GET") "mod#fn",
       HandlerEntry.webhook "/w" "someTopic" none] := by
  unfold mountsInConfigOrder
  decide

/-- Registration order of the synchronous phase is the configuration order
of the webhook entries. -/
theorem webhookMounts_eq_filter (hs : List HandlerEntry) :
    webhookMounts hs = (hs.filter isWebhookEntry).filterMap entryMount := by
  induction hs with
  | nil => rfl
  | cons e rest ih =>
    cases e with
    | webhook path topic payload =>
        simp [webhookMounts, isWebhookEntry, entryMount, ih]
    | dynamic path method handler =>
        simp [webhookMounts, isWebhookEntry, ih]

/-- Registration order of the deferred phase is the configuration order of
the dynamic entries (those whose mount does not throw). -/
theorem dynamicMounts_fst_eq_filter (hs : List HandlerEntry) :
    (dynamicMounts hs).1
      = (hs.filter fun e => !isWebhookEntry e).filterMap entryMount := by
  induction hs with
  | nil => rfl
  | cons e rest ih =>
    cases e with
    | webhook path topic payload =>
        simp [dynamicMounts, isWebhookEntry, ih]
    | dynamic path method handler =>
        cases hm : dynamicMountMethod method with
        | ok m => simp [dynamicMounts, isWebhookEntry, entryMount, hm, ih]
        | error e => simp [dynamicMounts, isWebhookEntry, entryMount, hm, ih]

/-- C4 amended: entries are NOT registered in plain configuration order;
instead all webhook bridges are registered first (in configuration order
among themselves, during the synchronous pass of the `map`), and all
dynamic handlers after them (in configuration order among themselves,
once their module loads resolve), because each dynamic entry's mount is
deferred behind an `await`. -/
theorem c4_registration_two_phases (hs : List HandlerEntry) :
    (handlerMounts hs).1
      = (hs.filter isWebhookEntry).filterMap entryMount
        ++ (hs.filter fun e => !isWebhookEntry e).filterMap entryMount := by
  unfold handlerMounts
  rw [webhookMounts_eq_filter, dynamicMounts_fst_eq_filter]

/-- Nothing registered before the playground block is the playground
middleware. -/
theorem earlyMounts_no_playground (cfg : ServeConfig) (env : Env) :
    ∀ m ∈ earlyMounts cfg env, m.mw ≠ Middleware.playgroundMw := by
  intro m hm
  simp [earlyMounts] at hm
  aesop

/-- No synchronous-phase handler mount is the playground middleware. -/
theorem webhookMounts_no_playground (hs : List HandlerEntry) :
    ∀ m ∈ webhookMounts hs, m.mw ≠ Middleware.playgroundMw := by
  induction hs with
  | nil => intro m hm; simp [webhookMounts] at hm
  | cons e rest ih =>
    intro m hm
    cases e with
    | webhook p t pl =>
        rcases List.mem_cons.mp (by simpa [webhookMounts] using hm)
          with rfl | hm'
        · simp
        · exact ih m hm'
    | dynamic p me h => exact ih m (by simpa [webhookMounts] using hm)

/-- No deferred-phase handler mount is the playground middleware. -/
theorem dynamicMounts_no_playground (hs : List HandlerEntry) :
    ∀ m ∈ (dynamicMounts hs).1, m.mw ≠ Middleware.playgroundMw := by
  induction hs with
  | nil => intro m hm; simp [dynamicMounts] at hm
  | cons e rest ih =>
    intro m hm
    cases e with
    | webhook p t pl => exact ih m (by simpa [dynamicMounts] using hm)
    | dynamic p me h =>
        cases hmm : dynamicMountMethod me with
        | ok v =>
            rcases List.mem_cons.mp (by simpa [dynamicMounts, hmm] using hm)
              with rfl | hm'
            · simp
            · exact ih m hm'
        | error e => exact ih m (by simpa [dynamicMounts, hmm] using hm)

/-- No handler-block mount is the playground middleware. -/
theorem handlerMounts_no_playground (hs : List HandlerEntry) :
    ∀ m ∈ (handlerMounts hs).1, m.mw ≠ Middleware.playgroundMw := by
  intro m hm
  rcases List.mem_append.mp hm with h | h
  · exact webhookMounts_no_playground hs m h
  · exact dynamicMounts_no_playground hs m h

/-- The playground block always registers the playground at the GraphQL
path. -/
theorem mem_playgroundMounts_gql (cfg : ServeConfig) :
    ({ method := "get", path := graphqlPath, mw := .playgroundMw } : Mount)
      ∈ playgroundMounts cfg := by
  simp [playgroundMounts]

/-- The playground block registers the playground at the root exactly when
`staticFiles` is falsy. -/
theorem mem_playgroundMounts_root (cfg : ServeConfig) :
    (({ method := "get", path := "/", mw := .playgroundMw } : Mount)
        ∈ playgroundMounts cfg)
      ↔ jsStrTruthy cfg.staticFiles = false := by
  cases hs : jsStrTruthy cfg.staticFiles <;>
    simp [playgroundMounts, hs, graphqlPath]

/-- The GraphQL-path playground route is registered exactly when the
playground is enabled (given the handler block did not throw). -/
theorem mem_buildApp_gql_playground (cfg : ServeConfig) (env : Env)
    (h : (handlerMounts (cfg.handlers.getD [])).2 = none) :
    (({ method := "get", path := graphqlPath, mw := .playgroundMw } : Mount)
        ∈ (buildApp cfg env).mounts)
      ↔ playgroundEnabled cfg.playground env.nodeEnv = true := by
  cases he : playgroundEnabled cfg.playground env.nodeEnv
  · simp only [buildApp, h, he, Bool.false_eq_true, iff_false]
    intro hm
    rcases List.mem_append.mp hm with hm | hm
    · rcases List.mem_append.mp hm with hm | hm
      · exact earlyMounts_no_playground cfg env _ hm rfl
      · exact handlerMounts_no_playground _ _ hm rfl
    · simp at hm
  · simp only [buildApp, h, he, iff_true]
    exact List.mem_append.mpr (Or.inr (by simp [mem_playgroundMounts_gql]))

/-- The root playground route is registered exactly when the playground is
enabled and no static root is configured (given the handler block did not
throw). -/
theorem mem_buildApp_root_playground (cfg : ServeConfig) (env : Env)
    (h : (handlerMounts (cfg.handlers.getD [])).2 = none) :
    (({ method := "get", path := "/", mw := .playgroundMw } : Mount)
        ∈ (buildApp cfg env).mounts)
      ↔ (playgroundEnabled cfg.playground env.nodeEnv = true ∧
         jsStrTruthy cfg.staticFiles = false) := by
  cases he : playgroundEnabled cfg.playground env.nodeEnv
  · simp only [buildApp, h, he, Bool.false_eq_true, false_and, iff_false]
    intro hm
    rcases List.mem_append.mp hm with hm | hm
    · rcases List.mem_append.mp hm with hm | hm
      · exact earlyMounts_no_playground cfg env _ hm rfl
      · exact handlerMounts_no_playground _ _ hm rfl
    · simp at hm
  · simp only [buildApp, h, he, true_and]
    constructor
    · intro hm
      rcases List.mem_append.mp hm with hm | hm
      · rcases List.mem_append.mp hm with hm | hm
        · exact absurd rfl (earlyMounts_no_playground cfg env _ hm)
        · exact absurd rfl (handlerMounts_no_playground _ _ hm)
      · exact (mem_playgroundMounts_root cfg).mp (by simpa using hm)
    · intro hs
      exact List.mem_append.mpr
        (Or.inr (by simp [(mem_playgroundMounts_root cfg).mpr hs]))

/-- When a static root is configured (truthy), the static middleware is
registered at the root. -/
theorem mem_buildApp_static (cfg : ServeConfig) (env : Env)
    (hs : jsStrTruthy cfg.staticFiles = true) :
    ({ method := "use", path := "/",
       mw := .staticMw (cfg.staticFiles.getD "") } : Mount)
      ∈ (buildApp cfg env).mounts := by
  refine List.mem_append.mpr (Or.inl (List.mem_append.mpr (Or.inl ?_)))
  simp [earlyMounts, hs]

/-- C7: the playground/explorer route at the GraphQL path is mounted iff
the `playground` flag is explicitly `true`, or the flag is unset and the
runtime environment (`NODE_ENV`, lower-cased) does not signal production;
an explicitly set flag overrides the environment default. -/
theorem c7_playground_enablement (cfg : ServeConfig) (env : Env)
    (h : (handlerMounts (cfg.handlers.getD [])).2 = none) :
    (({ method := "get", path := graphqlPath, mw := .playgroundMw } : Mount)
        ∈ (buildApp cfg env).mounts)
      ↔ (cfg.playground = some true ∨
         (cfg.playground = none ∧ nodeEnvIsProduction env.nodeEnv = false)) := by
  rw [mem_buildApp_gql_playground cfg env h]
  cases hp : cfg.playground with
  | none =>
      cases hprod : nodeEnvIsProduction env.nodeEnv <;>
        simp [playgroundEnabled, hprod]
  | some b => cases b <;> simp [playgroundEnabled]

/-- C7 witness: with `playground: true` and no handlers, the explorer route
is mounted at the GraphQL path. -/
theorem c7_playground_enablement_witness :
    ({ method := "get", path := graphqlPath, mw := .playgroundMw } : Mount)
      ∈ (buildApp { playground := some true } {}).mounts :=
  (c7_playground_enablement { playground := some true } {} rfl).mpr
    (Or.inl rfl)

/-- C8: with an enabled playground, a configured (truthy) static root
suppresses the playground's root `GET /` mount — the root is instead
covered by the static middleware — while `GET /graphql` still serves the
playground; with no static root, the playground is mounted at both
`GET /` and `GET /graphql`. -/
theorem c8_static_root_shadowing (cfg : ServeConfig) (env : Env)
    (h : (handlerMounts (cfg.handlers.getD [])).2 = none)
    (hen : playgroundEnabled cfg.playground env.nodeEnv = true) :
    (jsStrTruthy cfg.staticFiles = true →
      ({ method := "get", path := "/", mw := .playgroundMw } : Mount)
          ∉ (buildApp cfg env).mounts ∧
      ({ method := "get", path := graphqlPath, mw := .playgroundMw } : Mount)
          ∈ (buildApp cfg env).mounts ∧
      ({ method := "use", path := "/",
         mw := .staticMw (cfg.staticFiles.getD "") } : Mount)
          ∈ (buildApp cfg env).mounts) ∧
    (jsStrTruthy cfg.staticFiles = false →
      ({ method := "get", path := "/", mw := .playgroundMw } : Mount)
          ∈ (buildApp cfg env).mounts ∧
      ({ method := "get", path := graphqlPath, mw := .playgroundMw } : Mount)
          ∈ (buildApp cfg env).mounts) := by
  constructor
  · intro hs
    refine ⟨?_, ?_, mem_buildApp_static cfg env hs⟩
    · intro hm
      have := (mem_buildApp_root_playground cfg env h).mp hm
      rw [hs] at this
      exact absurd this.2 (by simp)
    · exact (mem_buildApp_gql_playground cfg env h).mpr hen
  · intro hs
    exact ⟨(mem_buildApp_root_playground cfg env h).mpr ⟨hen, hs⟩,
           (mem_buildApp_gql_playground cfg env h).mpr hen⟩

/-- C8 witness: with a static root `public` the root playground mount is
absent while the GraphQL-path one is present, and without a static root
both are present. -/
theorem c8_static_root_shadowing_witness :
    (({ method := "get", path := "/", mw := .playgroundMw } : Mount)
        ∉ (buildApp { staticFiles := some "public", playground := some true }
            {}).mounts ∧
     ({ method := "get", path := graphqlPath, mw := .playgroundMw } : Mount)
        ∈ (buildApp { staticFiles := some "public", playground := some true }
            {}).mounts) ∧
    ({ method := "get", path := "/", mw := .playgroundMw } : Mount)
        ∈ (buildApp { playground := some true } {}).mounts := by
  refine ⟨⟨?_, ?_⟩, ?_⟩
  · exact ((c8_static_root_shadowing
      { staticFiles := some "public", playground := some true } {} rfl rfl).1
        (by decide)).1
  · exact ((c8_static_root_shadowing
      { staticFiles := some "public", playground := some true } {} rfl rfl).1
        (by decide)).2.1
  · exact ((c8_static_root_shadowing
      { playground := some true } {} rfl rfl).2 (by decide)).1

/-- C5: for any inbound request to a webhook bridge path, the handler
publishes exactly one value to the configured topic — the request body, or
when `payload` is a non-empty path, the lodash-resolved value (which is
`undefined`/absent when the path is missing, still published, never an
error since `webhookHandler` is total) — then completes the response as an
empty acknowledgment without invoking schema execution and without
awaiting any subscriber. -/
theorem c5_webhook_publishes_and_acks (pubsubTopic p : String) (body : Json) :
    (webhookHandler pubsubTopic none body).published
        = [(pubsubTopic, some body)] ∧
    (p ≠ "" →
      (webhookHandler pubsubTopic (some p) body).published
          = [(pubsubTopic, lodashGet body p)]) ∧
    (webhookHandler pubsubTopic (some p) body).responseEnded = true ∧
    (webhookHandler pubsubTopic (some p) body).touchedSchema = false ∧
    (webhookHandler pubsubTopic none body).responseEnded = true ∧
    (webhookHandler pubsubTopic none body).touchedSchema = false := by
  refine ⟨rfl, ?_, rfl, rfl, rfl, rfl⟩
  intro hp
  obtain ⟨l⟩ := p
  cases l with
  | nil => exact absurd rfl hp
  | cons c cs => simp [webhookHandler, jsStrTruthy]

/-- C5 witness: the spec's example — body `{"event":{"id":42}}` with
`payload = "event"` publishes `{"id":42}` to the topic; a missing path
(`payload = "nope"`) publishes an absent value rather than erroring. -/
theorem c5_webhook_publishes_and_acks_witness :
    (webhookHandler "someTopic" (some "event")
        (Json.obj [("event", Json.obj [("id", Json.num 42)])])).published
      = [("someTopic", some (Json.obj [("id", Json.num 42)]))] ∧
    (webhookHandler "someTopic" (some "nope")
        (Json.obj [("event", Json.obj [("id", Json.num 42)])])).published
      = [("someTopic", none)] := by
  constructor
  · have h := (c5_webhook_publishes_and_acks "someTopic" "event"
      (Json.obj [("event", Json.obj [("id", Json.num 42)])])).2.1
        (by simp)
    rw [h]
    rfl
  · have h := (c5_webhook_publishes_and_acks "someTopic" "nope"
      (Json.obj [("event", Json.obj [("id", Json.num 42)])])).2.1
        (by simp)
    rw [h]
    rfl

/-- On any connection state, a run of subscribe messages hands every
operation the stored connection context and leaves the state unchanged. -/
theorem wsRunOps_const {Req Ctx : Type} (conn : WSConn Req Ctx)
    (ops : List Nat) :
    wsRunOps conn ops = (ops.map (fun _ => conn.connContext), conn) := by
  induction ops with
  | nil => rfl
  | cons op ops ih => simp [wsRunOps, wsSubscribeOp, ih]

/-- C6 (modelled from the spec, §4.4): after the handshake builds the
connection context from the upgrade request, every subscription operation
on that connection executes with that same context, and the Context
Builder has been invoked exactly once for the connection's lifetime —
never again per subscribed operation. -/
theorem c6_context_once_per_connection {Req Ctx : Type}
    (contextBuilder : Req → Ctx) (req : Req) (ops : List Nat) :
    (wsRunOps (wsHandshake contextBuilder req) ops).1
        = ops.map (fun _ => contextBuilder req) ∧
    (wsRunOps (wsHandshake contextBuilder req) ops).2.builderCalls = 1 := by
  rw [wsRunOps_const]
  exact ⟨rfl, rfl⟩

/-- C9: a bind failure produces exactly the error log carrying the causing
error's message, and the startup-success log with the serve URL is never
emitted for that failed bind. -/
theorem c9_bind_failure_logged (fork : Option Nat) (serverUrl msg : String) :
    listenLogs fork serverUrl (.failed msg)
        = [.error ("Unable to start GraphQL-Mesh: " ++ msg)] ∧
    LogEntry.info (serveLogMsg serverUrl)
        ∉ listenLogs fork serverUrl (.failed msg) := by
  refine ⟨rfl, ?_⟩
  simp [listenLogs]

/-- C10: the GraphQL endpoint path is the fixed constant `/graphql`, used
for the HTTP mount, the WebSocket upgrade path and the logged serve URL,
and omitted config fields resolve to `hostname = 'localhost'`,
`maxFileSize = 10000000`, `maxFiles = 10`,
`maxRequestBodySize = '100kb'`. -/
theorem c10_fixed_path_and_defaults (cfg : ServeConfig) (env : Env) :
    graphqlPath = "/graphql" ∧
    (buildApp cfg env).wsPath = "/graphql" ∧
    ({ method := "use", path := "/graphql", mw := .graphqlEndpoint } : Mount)
        ∈ (buildApp cfg env).mounts ∧
    serverUrlOf cfg
        = protocolOf cfg ++ "://" ++ resolvedHostname cfg ++ ":"
            ++ toString cfg.port ++ "/graphql" ∧
    (cfg.hostname = none → resolvedHostname cfg = "localhost") ∧
    (cfg.upload.bind (·.maxFileSize) = none →
      resolvedMaxFileSize cfg = 10000000) ∧
    (cfg.upload.bind (·.maxFiles) = none → resolvedMaxFiles cfg = 10) ∧
    (cfg.maxRequestBodySize = none →
      resolvedMaxRequestBodySize cfg = "100kb") := by
  refine ⟨rfl, rfl, ?_, rfl, ?_, ?_, ?_, ?_⟩
  · refine List.mem_append.mpr (Or.inl (List.mem_append.mpr (Or.inl ?_)))
    simp [earlyMounts, graphqlPath]
  · intro h; simp [resolvedHostname, h]
  · intro h; simp [resolvedMaxFileSize, h]
  · intro h; simp [resolvedMaxFiles, h]
  · intro h; simp [resolvedMaxRequestBodySize, h]

/-- C10 witness: the empty config resolves to all the documented defaults
and mounts the GraphQL endpoint at `/graphql`. -/
theorem c10_fixed_path_and_defaults_witness :
    resolvedHostname {} = "localhost" ∧
    resolvedMaxFileSize {} = 10000000 ∧
    resolvedMaxFiles {} = 10 ∧
    resolvedMaxRequestBodySize {} = "100kb" ∧
    ({ method := "use", path := "/graphql", mw := .graphqlEndpoint } : Mount)
        ∈ (buildApp {} {}).mounts :=
  ⟨(c10_fixed_path_and_defaults {} {}).2.2.2.2.1 rfl,
   (c10_fixed_path_and_defaults {} {}).2.2.2.2.2.1 rfl,
   (c10_fixed_path_and_defaults {} {}).2.2.2.2.2.2.1 rfl,
   (c10_fixed_path_and_defaults {} {}).2.2.2.2.2.2.2 rfl,
   (c10_fixed_path_and_defaults {} {}).2.2.1⟩

end MeshThm
